import Mathlib

/-
Verification development for the process-memory tool in src/scr/main.cpp.

The program is shallowly embedded: each C++ function becomes a Lean
definition over an explicit model of the OS environment.  Machine
arithmetic on `size_t` / `SIZE_T` / `unsigned long long` (all 64-bit on the
targeted platforms) is modelled as `Nat` reduced modulo 2^64 exactly where
the C++ expression can wrap.  Console I/O and OS calls are modelled as an
event trace, so that claims about which components a code path invokes and
what it prints are plain statements about lists.
-/

/-- Reduction modulo 2^64, the behaviour of 64-bit unsigned arithmetic
(`size_t`, `SIZE_T`, `unsigned long long`) on the targeted platforms. -/
def usize (n : Nat) : Nat := n % (2 ^ 64)

/-- The whitespace test of the C locale (`isspace`), used by `atoi`,
`strtoul` and stream extraction to skip leading whitespace. -/
def isCSpace (c : Char) : Bool :=
  c = ' ' || c = '\t' || c = '\n' || c = '\x0b' || c = '\x0c' || c = '\r'

/-- Accumulate the maximal leading run of decimal digits into a value,
returning the value and the unconsumed remainder, as `strtoul`-family
parsing does after sign handling. -/
def digitsVal : List Char → Nat → Nat × List Char
  | [], acc => (acc, [])
  | c :: cs, acc =>
    if c.isDigit then digitsVal cs (acc * 10 + (c.toNat - 48)) else (acc, c :: cs)

/-- Optional leading sign, as accepted by `atoi`, `strtoul` and stream
numeric extraction; returns whether the value is negated, and the rest. -/
def parseSign : List Char → Bool × List Char
  | '-' :: r => (true, r)
  | '+' :: r => (false, r)
  | cs => (false, cs)

/-- C `atoi`: skip C whitespace, optional sign, then the maximal digit run
(zero digits yield 0).  Used on `/proc` directory entry names, which are
far below the `int` overflow range, so overflow is not modelled. -/
def atoi (s : String) : Int :=
  match parseSign (s.toList.dropWhile isCSpace) with
  | (neg, cs) =>
    let v := (digitsVal cs 0).1
    if neg then -(v : Int) else (v : Int)

/-- The exceptions `std::stoul` can raise. -/
inductive CppException where
  | invalidArgument
  | outOfRange
  deriving DecidableEq

/-- Model of `std::stoul` with base 10 on a 64-bit `unsigned long`: skip C
whitespace and an optional sign; no leading digit raises
`std::invalid_argument`; a digit run whose value exceeds `ULONG_MAX`
raises `std::out_of_range`; a negative sign wraps the value modulo 2^64
(the `strtoul` negation rule). -/
def stoul (s : String) : Except CppException Nat :=
  match parseSign (s.toList.dropWhile isCSpace) with
  | (neg, cs) =>
    match cs with
    | [] => Except.error CppException.invalidArgument
    | c :: _ =>
      if c.isDigit then
        let v := (digitsVal cs 0).1
        if 2 ^ 64 ≤ v then Except.error CppException.outOfRange
        else Except.ok (if neg then (2 ^ 64 - v) % 2 ^ 64 else v)
      else Except.error CppException.invalidArgument

/-- Model of `std::cin >> (int)` applied to one whitespace-delimited input token:
optional sign then at least one digit, failure (`failbit`) when the token
does not start with a digit after the sign or the value overflows `int`.
Input scripts are modelled as lists of single-token lines, so a failed
extraction followed by the recovery `clear`/`getline` consumes exactly the
offending token. -/
def parseIntToken (s : String) : Option Int :=
  match parseSign s.toList with
  | (neg, cs) =>
    match cs with
    | [] => none
    | c :: _ =>
      if c.isDigit then
        let v := (digitsVal cs 0).1
        let sv : Int := if neg then -(v : Int) else (v : Int)
        if sv < -2147483648 ∨ 2147483647 < sv then none else some sv
      else none

/-- Model of `std::cin >> (size_t)` applied to one input token: like
`parseIntToken` but unsigned 64-bit, with the stream's `strtoull`-style
wrap of negated values and failure on overflow. -/
def parseSizeTToken (s : String) : Option Nat :=
  match parseSign s.toList with
  | (neg, cs) =>
    match cs with
    | [] => none
    | c :: _ =>
      if c.isDigit then
        let v := (digitsVal cs 0).1
        if 2 ^ 64 ≤ v then none
        else some (if neg then (2 ^ 64 - v) % 2 ^ 64 else v)
      else none

/-- Model of `std::cin >> (char)` on a token: its first character ( `killch` keeps
its initialisation `n` if nothing can be read). -/
def headChar (s : String) : Char :=
  match s.toList with
  | c :: _ => c
  | [] => 'n'

/-- The kill-confirmation test of the interactive menu
(src/scr/main.cpp:196): the recognised affirmative characters. -/
def isAffirmativeChar (c : Char) : Bool :=
  c == 's' || c == 'S' || c == 'y' || c == 'Y'

/-- One observable step of the program: a component / OS-call invocation,
a line (or partial line) on standard output, or one on standard error. -/
inductive Event where
  | memQuery (resultBytes : Nat)
  | setWorkingSetCall (ok : Bool)
  | mallocTrimCall (r : Int)
  | enumCall (thresholdMB : Nat)
  | termCall (pid : Int)
  | out (s : String)
  | errOut (s : String)
  deriving DecidableEq

/-- A process as seen by the Windows toolhelp snapshot plus the per-process
query calls of the source: its pid and executable name from the snapshot
entry, whether `OpenProcess(PROCESS_QUERY_INFORMATION | PROCESS_VM_READ)`
succeeds, whether `GetProcessMemoryInfo` succeeds on the opened handle, and
the `WorkingSetSize` it would report. -/
structure WinProcInfo where
  pid : Nat
  snapName : String
  canOpen : Bool
  memQueryOk : Bool
  workingSetSize : Nat
  deriving DecidableEq

/-- The Windows enumeration environment: whether
`CreateToolhelp32Snapshot` (and `Process32First`) succeed, and the
snapshot's process entries in enumeration order. -/
structure WinOS where
  snapshotOk : Bool
  procs : List WinProcInfo
  deriving DecidableEq

/-- Embeds `getProcessWorkingSet` (src/scr/main.cpp:35): the `WorkingSetSize`
when `GetProcessMemoryInfo` succeeds, else 0. -/
def getProcessWorkingSet (memQueryOk : Bool) (workingSet : Nat) : Nat :=
  if memQueryOk then usize workingSet else 0

/-- The `rss` local of the Windows enumeration loop
(src/scr/main.cpp:85-90): 0 when `OpenProcess` fails, else the
`getProcessWorkingSet` result. -/
def winRss (p : WinProcInfo) : Nat :=
  if p.canOpen then getProcessWorkingSet p.memQueryOk p.workingSetSize else 0

/-- One iteration of the Windows enumeration loop
(src/scr/main.cpp:82-94): the record the loop appends for process `p` at
threshold `thresholdMB`, if any.  The threshold product
`thresholdMB * 1024ULL * 1024ULL` is 64-bit and wraps. -/
def winProcRecord (thresholdMB : Nat) (p : WinProcInfo) :
    Option (Nat × String × Nat) :=
  if usize (thresholdMB * 1024 * 1024) ≤ winRss p then
    some (p.pid, p.snapName, winRss p)
  else none

/-- Embeds `listHighMemoryProcesses`, Windows path (src/scr/main.cpp:74-98):
empty when the snapshot cannot be taken, else the loop's records. -/
def listHighMemoryProcessesWin (os : WinOS) (thresholdMB : Nat) :
    List (Nat × String × Nat) :=
  if os.snapshotOk then os.procs.filterMap (winProcRecord thresholdMB) else []

/-- OS responses to the two working-set queries and the
`SetProcessWorkingSetSize` call of the Windows trim
(src/scr/main.cpp:59-72). -/
structure WinTrimEnv where
  memQueryOkBefore : Bool
  wsBefore : Nat
  trimOk : Bool
  trimErrorCode : Nat
  memQueryOkAfter : Bool
  wsAfter : Nat

/-- Embeds `trimCurrentProcessWorkingSet`, Windows path (src/scr/main.cpp:59-72):
query the working set, print it in KB, issue
`SetProcessWorkingSetSize(-1,-1)` (reporting a failure on standard
error), query and print again. -/
def trimCurrentProcessWorkingSetWin (e : WinTrimEnv) : List Event :=
  let before := getProcessWorkingSet e.memQueryOkBefore e.wsBefore
  let after := getProcessWorkingSet e.memQueryOkAfter e.wsAfter
  [Event.memQuery before,
   Event.out ("Before trim: " ++ toString (before / 1024) ++ " KB\n"),
   Event.setWorkingSetCall e.trimOk] ++
  (if e.trimOk then []
   else [Event.errOut
     ("SetProcessWorkingSetSize failed, error=" ++ toString e.trimErrorCode ++ "\n")]) ++
  [Event.memQuery after,
   Event.out ("After  trim: " ++ toString (after / 1024) ++ " KB\n")]

/-- OS model for the Windows termination path: which pids are alive,
which the caller may open with `PROCESS_TERMINATE`, and whether
`TerminateProcess` on an opened handle returns TRUE. -/
structure WinTermEnv where
  alive : Nat → Bool
  terminatePermitted : Nat → Bool
  terminateAccepts : Nat → Bool

/-- OS model: `OpenProcess(PROCESS_TERMINATE, FALSE, pid)` yields a handle
only for a live pid the caller is permitted to terminate. -/
def openProcessForTerminate (env : WinTermEnv) (pid : Nat) : Bool :=
  env.alive pid && env.terminatePermitted pid

/-- Embeds `tryTerminateProcess`, Windows path (src/scr/main.cpp:100-106): false
when `OpenProcess` fails, else whether `TerminateProcess` returned TRUE. -/
def tryTerminateProcessWin (env : WinTermEnv) (pid : Nat) : Bool :=
  if openProcessForTerminate env pid then env.terminateAccepts pid else false

/-- One directory entry of `/proc` together with the per-pid files the
POSIX enumeration reads: the entry name, the first two fields of
`/proc/<name>/statm` when that file can be opened, and the first line of
`/proc/<name>/comm` when that file can be opened. -/
structure LinuxProcEntry where
  dname : String
  statm : Option (Nat × Nat)
  comm : Option String
  deriving DecidableEq

/-- The POSIX-side environment: compile-time platform facts, the
`malloc_trim` return value, whether `opendir("/proc")` succeeds, the page
size, the `/proc` entries in readdir order, and the OS model for
`kill(pid, SIGTERM)` (which succeeds only on a live pid the caller may
signal). -/
structure PosixWorld where
  linuxKernel : Bool
  glibc : Bool
  mallocTrimRet : Int
  procOpenOk : Bool
  pageSize : Nat
  entries : List LinuxProcEntry
  alive : Int → Bool
  signalPermitted : Int → Bool

/-- The `name` local of the POSIX enumeration loop
(src/scr/main.cpp:145-148): the first line of `/proc/<pid>/comm`, or the
empty string the variable keeps when the file cannot be opened. -/
def commName (e : LinuxProcEntry) : String :=
  match e.comm with
  | some n => n
  | none => ""

/-- One iteration of the POSIX enumeration loop (src/scr/main.cpp:133-151)
for entry `e`: skip entries whose `atoi` pid is not positive and entries
whose `statm` cannot be opened; otherwise keep the entry when
`resident * pageSize` (64-bit, wrapping) is at least the wrapping
threshold product. -/
def linuxEntryRecord (pageSize thresholdMB : Nat) (e : LinuxProcEntry) :
    Option (Int × String × Nat) :=
  if atoi e.dname ≤ 0 then none
  else
    match e.statm with
    | none => none
    | some sr =>
      let rss := usize (sr.2 * pageSize)
      if usize (thresholdMB * 1024 * 1024) ≤ rss then
        some (atoi e.dname, commName e, rss)
      else none

/-- Embeds `listHighMemoryProcesses`, POSIX path (src/scr/main.cpp:127-155):
empty on a non-Linux POSIX platform (the walk is compiled only under
`__linux__`) and when `/proc` cannot be opened, else the loop's records. -/
def listHighMemoryProcessesPosix (w : PosixWorld) (thresholdMB : Nat) :
    List (Int × String × Nat) :=
  if w.linuxKernel then
    if w.procOpenOk then w.entries.filterMap (linuxEntryRecord w.pageSize thresholdMB)
    else []
  else []

/-- Embeds `trimCurrentProcessWorkingSet`, POSIX path (src/scr/main.cpp:110-125):
on Linux with glibc, call `malloc_trim(0)` and print its return value;
otherwise only print that no trim is available.  No working-set size is
read on this path. -/
def trimCurrentProcessWorkingSetPosix (w : PosixWorld) : List Event :=
  if w.linuxKernel then
    Event.out ("Requesting malloc_trim (glibc) if available...\n") ::
    (if w.glibc then
      [Event.mallocTrimCall w.mallocTrimRet,
       Event.out ("malloc_trim returned " ++ toString w.mallocTrimRet ++ "\n")]
     else [Event.out ("malloc_trim not available on this platform.\n")])
  else [Event.out ("No portable trim available on this POSIX platform.\n")]

/-- OS model: the return value of `kill(pid, SIGTERM)`, 0 on success and
-1 (with `errno` ESRCH or EPERM, which the program does not read) when the
pid is dead or the caller may not signal it. -/
def posixKillRet (w : PosixWorld) (pid : Int) : Int :=
  if w.alive pid && w.signalPermitted pid then 0 else -1

/-- Embeds `tryTerminateProcess`, POSIX path (src/scr/main.cpp:157-160): true
exactly when `kill(pid, SIGTERM)` returned 0. -/
def tryTerminateProcessPosix (w : PosixWorld) (pid : Int) : Bool :=
  posixKillRet w pid == 0

/-- The kill attempt of the one-shot `list --kill` loop
(src/scr/main.cpp:278-281): announcement, the `tryTerminateProcess`
invocation, and its OK/FAILED outcome. -/
def oneShotKillEvents (w : PosixWorld) (pid : Int) : List Event :=
  [Event.out ("  Attempting to terminate PID " ++ toString pid ++ " ... "),
   Event.termCall pid,
   Event.out (if tryTerminateProcessPosix w pid then "OK\n" else "FAILED\n")]

/-- The record loop of the one-shot `list` path (src/scr/main.cpp:274-282):
print each record, and when `--kill` was given attempt to terminate it. -/
def oneShotProcLoop (w : PosixWorld) (doKill : Bool) :
    List (Int × String × Nat) → List Event
  | [] => []
  | r :: rs =>
    Event.out ("PID=" ++ toString r.1 ++ " name=" ++ r.2.1 ++ " rssMB=" ++
      toString (r.2.2 / 1024 / 1024) ++ "\n") ::
    (if doKill then oneShotKillEvents w r.1 else []) ++ oneShotProcLoop w doKill rs

/-- The one-shot `list` body (src/scr/main.cpp:270-282): enumerate, print
the distinct empty message when nothing matched, then run the record
loop. -/
def oneShotListBody (w : PosixWorld) (threshold : Nat) (doKill : Bool) : List Event :=
  let procs := listHighMemoryProcessesPosix w threshold
  Event.enumCall threshold ::
  (if procs.isEmpty then
    [Event.out ("No processes found using >= " ++ toString threshold ++ " MB\n")]
   else []) ++
  oneShotProcLoop w doKill procs

/-- The kill attempt of the interactive record loop
(src/scr/main.cpp:216-219). -/
def interactiveKillEvents (w : PosixWorld) (pid : Int) : List Event :=
  [Event.out ("  Intentando terminar PID " ++ toString pid ++ " ... "),
   Event.termCall pid,
   Event.out (if tryTerminateProcessPosix w pid then "OK\n" else "FAILED\n")]

/-- The record loop of the interactive list path
(src/scr/main.cpp:212-220). -/
def interactiveProcLoop (w : PosixWorld) (doKill : Bool) :
    List (Int × String × Nat) → List Event
  | [] => []
  | r :: rs =>
    Event.out (" PID=" ++ toString r.1 ++ " name=" ++ r.2.1 ++ " rssMB=" ++
      toString (r.2.2 / 1024 / 1024) ++ "\n") ::
    (if doKill then interactiveKillEvents w r.1 else []) ++
    interactiveProcLoop w doKill rs

/-- The interactive list body after the threshold and kill answers have
been read (src/scr/main.cpp:197-220): the header line, the enumeration,
and the record loop.  No empty-result message is printed on this path. -/
def interactiveListBody (w : PosixWorld) (threshold : Nat) (doKill : Bool) :
    List Event :=
  Event.out ("Procesos con >= " ++ toString threshold ++ " MB:\n") ::
  Event.enumCall threshold ::
  interactiveProcLoop w doKill (listHighMemoryProcessesPosix w threshold)

/-- The menu block printed at the top of every loop iteration
(src/scr/main.cpp:167-172). -/
def menuDisplayEvents : List Event :=
  [Event.out ("\nMenu:\n"),
   Event.out (" 1) Eliminar memoria del proceso actual\n"),
   Event.out (" 2) Listar procesos que consumen memoria (y opcionalmente terminarlos)\n"),
   Event.out (" 3) Eliminar memoria y procesar procesos (1+2)\n"),
   Event.out (" 4) Salir\n"),
   Event.out ("Elige una opción: ")]

/-- Embeds `runInteractiveMenu` (src/scr/main.cpp:165-224) on a script of
single-token input lines.  Each iteration prints the menu and reads an
option; option 4 breaks; options 1 and 3 trim; options 2 and 3 read a
threshold (an unparsable token is consumed by the `clear`/`getline`
recovery and control returns to the menu), read the kill answer, and run
the interactive list body.  An exhausted script ends the session (the
source would instead spin on a closed input stream, which no claim
concerns). -/
def runMenu (w : PosixWorld) : List String → List Event
  | [] => []
  | tok :: rest =>
    menuDisplayEvents ++
    match parseIntToken tok with
    | none => Event.out ("Entrada no válida. Intenta de nuevo.\n") :: runMenu w rest
    | some opt =>
      if opt = 4 then []
      else
        (if opt = 1 ∨ opt = 3 then trimCurrentProcessWorkingSetPosix w else []) ++
        if opt = 2 ∨ opt = 3 then
          Event.out ("Umbral en MB para listar procesos: ") ::
          match rest with
          | [] => []
          | t :: rest2 =>
            match parseSizeTToken t with
            | none =>
              Event.out ("Umbral inválido. Volviendo al menú.\n") :: runMenu w rest2
            | some threshold =>
              Event.out ("Intentar terminar procesos listados? (s/n): ") ::
              match rest2 with
              | [] => []
              | k :: rest3 =>
                interactiveListBody w threshold (isAffirmativeChar (headChar k)) ++
                runMenu w rest3
        else runMenu w rest

/-- The usage block of `main` (src/scr/main.cpp:291-294). -/
def usageEvents (prog : String) : List Event :=
  [Event.out ("Usage:\n"),
   Event.out ("  " ++ prog ++ " trim\n"),
   Event.out ("  " ++ prog ++ " list <thresholdMB> [--kill]\n"),
   Event.out ("  " ++ prog ++ " alt\n")]

/-- Embeds `alternate_main` (src/scr/main.cpp:227-231). -/
def alternateMainEvents (w : PosixWorld) : List Event :=
  Event.out ("Alternate main: trimming current process working set...\n") ::
  trimCurrentProcessWorkingSetPosix w ++
  [Event.out ("Done. Use the program with arguments to list/kill processes.\n")]

/-- How a run of `main` ends: a return with an exit code, or process death
from an exception no handler catches; either carries the events emitted
before the end. -/
inductive MainOutcome where
  | exits (code : Nat) (events : List Event)
  | uncaught (e : CppException) (events : List Event)
  deriving DecidableEq

/-- The events a run emitted, whichever way it ended. -/
def mainEvents : MainOutcome → List Event
  | MainOutcome.exits _ es => es
  | MainOutcome.uncaught _ es => es

/-- Embeds `main` (src/scr/main.cpp:233-296) on the POSIX build: no arguments
enters the interactive menu; `trim`, `list <t> [--kill]` and `alt` run
their one-shot bodies and return 0 (with `std::stoul` on the threshold
argument raised out of `main` uncaught when it throws); anything else
prints usage and returns 1.  `args` is `argv[1..]`, `input` the stdin
script for the interactive mode. -/
def cppMain (w : PosixWorld) (prog : String) (args : List String)
    (input : List String) : MainOutcome :=
  match args with
  | [] => MainOutcome.exits 0 (runMenu w input)
  | cmd :: argrest =>
    if cmd = "trim" then
      MainOutcome.exits 0 (trimCurrentProcessWorkingSetPosix w)
    else
      match argrest with
      | a2 :: a3s =>
        if cmd = "list" then
          match stoul a2 with
          | Except.error e => MainOutcome.uncaught e []
          | Except.ok threshold =>
            let doKill := match a3s with
              | a3 :: _ => a3 == "--kill"
              | [] => false
            MainOutcome.exits 0 (oneShotListBody w threshold doKill)
        else if cmd = "alt" then MainOutcome.exits 0 (alternateMainEvents w)
        else MainOutcome.exits 1 (usageEvents prog)
      | [] =>
        if cmd = "alt" then MainOutcome.exits 0 (alternateMainEvents w)
        else MainOutcome.exits 1 (usageEvents prog)

/-- Events that are invocations of a component or OS facility rather than
console text. -/
def isComponentCall : Event → Bool
  | Event.memQuery _ => true
  | Event.setWorkingSetCall _ => true
  | Event.mallocTrimCall _ => true
  | Event.enumCall _ => true
  | Event.termCall _ => true
  | _ => false

/-- Events that read the current process's resident memory size. -/
def isMemQuery : Event → Bool
  | Event.memQuery _ => true
  | _ => false

/-- The component-invocation subsequence of a trace. -/
def callsOf (es : List Event) : List Event := es.filter isComponentCall

/-- The pids passed to `tryTerminateProcess`, in call order. -/
def termCalls (es : List Event) : List Int :=
  es.filterMap fun e =>
    match e with
    | Event.termCall p => some p
    | _ => none

/-- Synthetic POSIX fixture: three readable processes of 60 MB, 10 MB and
50 MB resident size (page size 4096), all alive and signalable. -/
def fixtureW : PosixWorld :=
  ⟨true, true, 1, true, 4096,
   [⟨"101", some (20000, 15360), some "chrome"⟩,
    ⟨"202", some (3000, 2560), some "small"⟩,
    ⟨"303", some (13000, 12800), some "java"⟩],
   fun _ => true, fun _ => true⟩

/-- Synthetic POSIX fixture with no processes at all. -/
def emptyW : PosixWorld :=
  ⟨true, true, 1, true, 4096, [], fun _ => true, fun _ => true⟩

/-- Synthetic POSIX fixture with one 4096-byte process, used to exercise
the threshold-product wraparound. -/
def w7overflow : PosixWorld :=
  ⟨true, true, 1, true, 4096, [⟨"5", some (1, 1), some "x"⟩],
   fun _ => true, fun _ => true⟩

/-- Synthetic POSIX fixture in which no pid is alive. -/
def deadPidW : PosixWorld :=
  ⟨true, true, 1, true, 4096, [], fun _ => false, fun _ => true⟩

/-- Windows termination environment in which only pid 3 is alive. -/
def winTermEnvFix : WinTermEnv :=
  ⟨fun p => p == 3, fun _ => true, fun _ => true⟩

/-- Windows fixture: one queryable 1000-byte process. -/
def cexWinOS : WinOS := ⟨true, [⟨5, "a", true, true, 1000⟩]⟩

/-- Windows fixture: one queryable 2 MB process. -/
def c1WinOS : WinOS := ⟨true, [⟨5, "a", true, true, 2097152⟩]⟩

/-- Windows fixture: one process that cannot be opened for memory
querying, with a non-empty snapshot name. -/
def os9 : WinOS := ⟨true, [⟨7, "svc.exe", false, true, 0⟩]⟩

/-- Any record produced by one Windows enumeration step satisfies the
(wrapping) threshold test and is exactly the process's snapshot data with
its computed resident size. -/
theorem winProcRecord_mem_bound {T : Nat} {p : WinProcInfo}
    {r : Nat × String × Nat} (h : winProcRecord T p = some r) :
    usize (T * 1024 * 1024) ≤ r.2.2 ∧ r = (p.pid, p.snapName, winRss p) := by
  unfold winProcRecord at h
  split at h
  · cases h
    exact ⟨by assumption, rfl⟩
  · exact absurd h (by simp)

/-- At threshold 0 every snapshot entry yields a record. -/
theorem winProcRecord_zero (p : WinProcInfo) :
    winProcRecord 0 p = some (p.pid, p.snapName, winRss p) := by
  unfold winProcRecord
  simp [usize]

/-- Any record produced by one POSIX enumeration step: its pid is the
positive `atoi` of the entry name, its name the `comm` line, and its
resident size passes the (wrapping) threshold test. -/
theorem linuxEntryRecord_some {ps T : Nat} {e : LinuxProcEntry}
    {r : Int × String × Nat} (h : linuxEntryRecord ps T e = some r) :
    0 < atoi e.dname ∧ usize (T * 1024 * 1024) ≤ r.2.2 ∧
    ∃ sr, e.statm = some sr ∧ r = (atoi e.dname, commName e, usize (sr.2 * ps)) := by
  unfold linuxEntryRecord at h
  split at h
  · exact absurd h (by simp)
  · split at h
    · exact absurd h (by simp)
    · rename_i hpid osr sr hstatm
      simp only [] at h
      split at h
      · cases h
        exact ⟨by omega, by assumption, sr, hstatm, rfl⟩
      · exact absurd h (by simp)

/-- At threshold 0 every `/proc` entry with a positive pid and a readable
`statm` yields a record. -/
theorem linuxEntryRecord_zero (ps : Nat) (e : LinuxProcEntry) (sr : Nat × Nat)
    (hpid : 0 < atoi e.dname) (hs : e.statm = some sr) :
    linuxEntryRecord ps 0 e = some (atoi e.dname, commName e, usize (sr.2 * ps)) := by
  unfold linuxEntryRecord
  rw [hs]
  have hp : ¬ atoi e.dname ≤ 0 := by omega
  simp [usize, hp]

/-- C1 counterexample: the claim "every record returned by
listHighMemoryProcesses(T) has residentBytes >= T * 1024 * 1024" fails at
T = 2^44 on both paths, because the threshold product is computed in
64-bit arithmetic and wraps to 0, so records far below T megabytes are
returned. -/
theorem c1_counterexample :
    listHighMemoryProcessesWin cexWinOS 17592186044416 = [(5, "a", 1000)] ∧
    listHighMemoryProcessesPosix w7overflow 17592186044416 = [(5, "x", 4096)] ∧
    ¬ (17592186044416 * 1024 * 1024 ≤ 1000) ∧
    ¬ (17592186044416 * 1024 * 1024 ≤ 4096) := by
  refine ⟨by decide, by decide, by decide, by decide⟩

/-- C1 amended: every record returned by `listHighMemoryProcesses(T)` has
residentBytes at least `(T * 1024 * 1024) mod 2^64` (the comparison the
code performs), and therefore at least `T * 1024 * 1024` itself whenever
that product does not overflow 64 bits — on both the Windows and the
Linux enumeration path. -/
theorem c1_threshold_bound (os : WinOS) (w : PosixWorld) (T : Nat) :
    (∀ pid name rss, (pid, name, rss) ∈ listHighMemoryProcessesWin os T →
       usize (T * 1024 * 1024) ≤ rss ∧
       (T * 1024 * 1024 < 2 ^ 64 → T * 1024 * 1024 ≤ rss)) ∧
    (∀ (ppid : Int) name rss, (ppid, name, rss) ∈ listHighMemoryProcessesPosix w T →
       usize (T * 1024 * 1024) ≤ rss ∧
       (T * 1024 * 1024 < 2 ^ 64 → T * 1024 * 1024 ≤ rss)) := by
  constructor
  · intro pid name rss hmem
    unfold listHighMemoryProcessesWin at hmem
    split at hmem
    · obtain ⟨p, _, hrec⟩ := List.mem_filterMap.mp hmem
      obtain ⟨hb, _⟩ := winProcRecord_mem_bound hrec
      refine ⟨hb, fun hov => ?_⟩
      unfold usize at hb
      rwa [Nat.mod_eq_of_lt hov] at hb
    · exact absurd hmem (by simp)
  · intro ppid name rss hmem
    unfold listHighMemoryProcessesPosix at hmem
    split at hmem
    · split at hmem
      · obtain ⟨e, _, hrec⟩ := List.mem_filterMap.mp hmem
        obtain ⟨_, hb, _⟩ := linuxEntryRecord_some hrec
        refine ⟨hb, fun hov => ?_⟩
        unfold usize at hb
        rwa [Nat.mod_eq_of_lt hov] at hb
      · exact absurd hmem (by simp)
    · exact absurd hmem (by simp)

/-- C1 amended, witnessed at a concrete input: the 2 MB Windows fixture
process is listed at threshold 1 and its resident size meets 1 MB. -/
theorem c1_threshold_bound_witness :
    (5, "a", 2097152) ∈ listHighMemoryProcessesWin c1WinOS 1 ∧
    1 * 1024 * 1024 ≤ 2097152 :=
  ⟨by decide,
   ((c1_threshold_bound c1WinOS fixtureW 1).1 5 ("a") 2097152 (by decide)).2 (by decide)⟩

/-- C5: over a fixed process list, the pids returned at threshold 0 are a
superset of the pids returned at any threshold T > 0, on both enumeration
paths: the record a process yields is threshold-independent, and at
threshold 0 the filter accepts every process the walk can read. -/
theorem c5_zero_threshold_superset (os : WinOS) (w : PosixWorld) (T : Nat)
    (_hT : 0 < T) :
    (∀ pid, pid ∈ (listHighMemoryProcessesWin os T).map (fun r => r.1) →
       pid ∈ (listHighMemoryProcessesWin os 0).map (fun r => r.1)) ∧
    (∀ ppid : Int, ppid ∈ (listHighMemoryProcessesPosix w T).map (fun r => r.1) →
       ppid ∈ (listHighMemoryProcessesPosix w 0).map (fun r => r.1)) := by
  constructor
  · intro pid hmem
    obtain ⟨r, hr, hpid⟩ := List.mem_map.mp hmem
    unfold listHighMemoryProcessesWin at hr ⊢
    split at hr
    · rename_i hsnap
      simp only [if_pos hsnap]
      obtain ⟨p, hp, hrec⟩ := List.mem_filterMap.mp hr
      obtain ⟨_, hreq⟩ := winProcRecord_mem_bound hrec
      refine List.mem_map.mpr ⟨(p.pid, p.snapName, winRss p),
        List.mem_filterMap.mpr ⟨p, hp, winProcRecord_zero p⟩, ?_⟩
      rw [← hpid, hreq]
    · exact absurd hr (by simp)
  · intro ppid hmem
    obtain ⟨r, hr, hpid⟩ := List.mem_map.mp hmem
    unfold listHighMemoryProcessesPosix at hr ⊢
    split at hr
    · rename_i hlin
      simp only [if_pos hlin]
      split at hr
      · rename_i hopen
        simp only [if_pos hopen]
        obtain ⟨e, he, hrec⟩ := List.mem_filterMap.mp hr
        obtain ⟨hpos, _, sr, hstatm, hreq⟩ := linuxEntryRecord_some hrec
        refine List.mem_map.mpr ⟨(atoi e.dname, commName e, usize (sr.2 * w.pageSize)),
          List.mem_filterMap.mpr ⟨e, he, linuxEntryRecord_zero w.pageSize e sr hpos hstatm⟩, ?_⟩
        rw [← hpid, hreq]
      · exact absurd hr (by simp)
    · exact absurd hr (by simp)

/-- C5, witnessed at a concrete input: pid 101 is listed by the POSIX
fixture at threshold 50 and also at threshold 0. -/
theorem c5_zero_threshold_superset_witness :
    0 < 50 ∧
    (101 : Int) ∈ (listHighMemoryProcessesPosix fixtureW 0).map (fun r => r.1) :=
  ⟨by decide,
   (c5_zero_threshold_superset c1WinOS fixtureW 50 (by decide)).2 101 (by decide)⟩

/-- C6: `tryTerminateProcess` returns false whenever the OS reports
failure — a dead pid or missing privilege makes `OpenProcess` (Windows)
or `kill` (POSIX) fail — and returns true only when the OS accepted the
termination request; both paths are total functions, so no fault is
raised. -/
theorem c6_terminate_only_on_success (env : WinTermEnv) (w : PosixWorld)
    (wpid : Nat) (ppid : Int) :
    (env.alive wpid = false → tryTerminateProcessWin env wpid = false) ∧
    (env.terminatePermitted wpid = false → tryTerminateProcessWin env wpid = false) ∧
    (tryTerminateProcessWin env wpid = true →
       openProcessForTerminate env wpid = true ∧ env.terminateAccepts wpid = true) ∧
    (w.alive ppid = false → tryTerminateProcessPosix w ppid = false) ∧
    (w.signalPermitted ppid = false → tryTerminateProcessPosix w ppid = false) ∧
    (tryTerminateProcessPosix w ppid = true → posixKillRet w ppid = 0) := by
  refine ⟨fun h => ?_, fun h => ?_, fun h => ?_, fun h => ?_, fun h => ?_, fun h => ?_⟩
  · simp [tryTerminateProcessWin, openProcessForTerminate, h]
  · simp [tryTerminateProcessWin, openProcessForTerminate, h]
  · unfold tryTerminateProcessWin at h
    split at h
    · exact ⟨by assumption, h⟩
    · exact absurd h (by simp)
  · simp [tryTerminateProcessPosix, posixKillRet, h]
  · simp [tryTerminateProcessPosix, posixKillRet, h]
  · unfold tryTerminateProcessPosix at h
    exact beq_iff_eq.mp h

/-- C6, witnessed at a concrete input: in a world where no pid is alive,
terminating pid 42 on the POSIX path returns false, and in the Windows
environment where only pid 3 is alive, terminating pid 7 returns false. -/
theorem c6_terminate_only_on_success_witness :
    deadPidW.alive 42 = false ∧ tryTerminateProcessPosix deadPidW 42 = false ∧
    winTermEnvFix.alive 7 = false ∧ tryTerminateProcessWin winTermEnvFix 7 = false :=
  ⟨rfl, (c6_terminate_only_on_success winTermEnvFix deadPidW 7 42).2.2.2.1 rfl,
   rfl, (c6_terminate_only_on_success winTermEnvFix deadPidW 7 42).1 rfl⟩

/-- C2 counterexample: at a concrete environment the POSIX
`trimCurrentProcessWorkingSet` emits exactly a request message, the
`malloc_trim` call and its return-value message — its complete observable
behaviour contains no resident-memory sample at all, so it cannot return
(or report) a (beforeBytes, afterBytes) pair of resident sizes sampled
before and after the trim request. -/
theorem c2_counterexample :
    trimCurrentProcessWorkingSetPosix fixtureW =
      [Event.out ("Requesting malloc_trim (glibc) if available...\n"),
       Event.mallocTrimCall 1,
       Event.out ("malloc_trim returned 1\n")] ∧
    (trimCurrentProcessWorkingSetPosix fixtureW).filter isMemQuery = [] := by
  refine ⟨by decide, by decide⟩

/-- C2 amended: on the Windows path the trim samples the resident size
exactly twice — before and after the `SetProcessWorkingSetSize` request —
and prints both samples in KB even when the request fails (the failure
only adds a standard-error message); on the POSIX path the trim performs
no resident-size sampling at all.  Both paths are total functions, so no
fault is raised even when the underlying call is unsupported. -/
theorem c2_trim_reports (e : WinTrimEnv) (w : PosixWorld) :
    (trimCurrentProcessWorkingSetWin e).filter isMemQuery =
      [Event.memQuery (getProcessWorkingSet e.memQueryOkBefore e.wsBefore),
       Event.memQuery (getProcessWorkingSet e.memQueryOkAfter e.wsAfter)] ∧
    Event.out ("Before trim: " ++
        toString (getProcessWorkingSet e.memQueryOkBefore e.wsBefore / 1024) ++
        " KB\n") ∈ trimCurrentProcessWorkingSetWin e ∧
    Event.out ("After  trim: " ++
        toString (getProcessWorkingSet e.memQueryOkAfter e.wsAfter / 1024) ++
        " KB\n") ∈ trimCurrentProcessWorkingSetWin e ∧
    (trimCurrentProcessWorkingSetPosix w).filter isMemQuery = [] := by
  refine ⟨?_, ?_, ?_, ?_⟩
  · cases htr : e.trimOk <;>
      simp [trimCurrentProcessWorkingSetWin, htr, isMemQuery]
  · cases htr : e.trimOk <;>
      simp [trimCurrentProcessWorkingSetWin, htr]
  · cases htr : e.trimOk <;>
      simp [trimCurrentProcessWorkingSetWin, htr]
  · cases hlin : w.linuxKernel
    · simp [trimCurrentProcessWorkingSetPosix, hlin, isMemQuery]
    · cases hgl : w.glibc <;>
        simp [trimCurrentProcessWorkingSetPosix, hlin, hgl, isMemQuery]

/-- C3: the one-shot invocations `list abc` and `list <out-of-range>` die
from an exception thrown by `std::stoul` in `main`, which has no handler:
the run ends in an uncaught `std::invalid_argument` (respectively
`std::out_of_range`), not in the deliberate usage-error exit, refuting
the claim that every one-shot invocation completes without an uncaught
exception. -/
theorem c3_uncaught_exception :
    cppMain fixtureW ("prog") ["list", "abc"] [] =
      MainOutcome.uncaught CppException.invalidArgument [] ∧
    cppMain fixtureW ("prog") ["list", "99999999999999999999999"] [] =
      MainOutcome.uncaught CppException.outOfRange [] := by
  refine ⟨by decide, by decide⟩

/-- A Windows process that cannot be opened has resident size 0 and is
still recorded at threshold 0, under its snapshot name. -/
theorem winProcRecord_cannotOpen_zero (p : WinProcInfo) (h : p.canOpen = false) :
    winProcRecord 0 p = some (p.pid, p.snapName, 0) := by
  unfold winProcRecord winRss
  simp [h, usize]

/-- A Windows process that cannot be opened yields no record at any
positive threshold whose byte product does not wrap. -/
theorem winProcRecord_cannotOpen_pos (p : WinProcInfo) (T : Nat)
    (h : p.canOpen = false) (h1 : 1 ≤ T) (h2 : T * 1024 * 1024 < 2 ^ 64) :
    winProcRecord T p = none := by
  unfold winProcRecord winRss
  simp only [h, if_false, Bool.false_eq_true]
  have : usize (T * 1024 * 1024) = T * 1024 * 1024 := Nat.mod_eq_of_lt h2
  rw [this]
  have : ¬ T * 1024 * 1024 ≤ 0 := by omega
  simp [this]

/-- A `/proc` entry whose `statm` cannot be opened yields no record at any
threshold, including 0. -/
theorem linuxEntryRecord_noStatm (ps T : Nat) (e : LinuxProcEntry)
    (h : e.statm = none) : linuxEntryRecord ps T e = none := by
  unfold linuxEntryRecord
  rw [h]
  split <;> rfl

/-- C9 counterexample: the claimed single consistent policy — a process
whose memory query fails is either omitted or included with
residentBytes = 0 and empty name — fails on the Windows path: at
threshold 0 the unopenable fixture process is included with
residentBytes = 0 but with its non-empty snapshot name, so neither
allowed outcome occurs. -/
theorem c9_counterexample :
    ¬ (listHighMemoryProcessesWin os9 0 = [] ∨
       listHighMemoryProcessesWin os9 0 = [(7, "", 0)]) := by
  decide

/-- C9 amended: enumeration never aborts (both embeddings are total), but
the failure policy is per-platform, not single: Windows includes a
process whose memory query fails as residentBytes = 0 under its snapshot
name (so it appears exactly at thresholds whose wrapped byte product is
0, in particular threshold 0, and is omitted at non-wrapping positive
thresholds); Linux omits a process whose `statm` is unreadable at every
threshold, and a process whose `comm` alone is unreadable is included
with its real resident size and an empty name. -/
theorem c9_failure_policy (p : WinProcInfo) (ps T sp res : Nat)
    (e : LinuxProcEntry) :
    (p.canOpen = false → winProcRecord 0 p = some (p.pid, p.snapName, 0)) ∧
    (p.canOpen = false → 1 ≤ T → T * 1024 * 1024 < 2 ^ 64 →
       winProcRecord T p = none) ∧
    (e.statm = none → linuxEntryRecord ps T e = none) ∧
    (e.statm = some (sp, res) → e.comm = none → 0 < atoi e.dname →
       usize (T * 1024 * 1024) ≤ usize (res * ps) →
       linuxEntryRecord ps T e = some (atoi e.dname, "", usize (res * ps))) := by
  refine ⟨winProcRecord_cannotOpen_zero p,
    fun h h1 h2 => winProcRecord_cannotOpen_pos p T h h1 h2,
    linuxEntryRecord_noStatm ps T e, fun hs hc hpid hge => ?_⟩
  unfold linuxEntryRecord
  rw [hs]
  have hp : ¬ atoi e.dname ≤ 0 := by omega
  simp [hp, hge, commName, hc]

/-- C9 amended, witnessed at a concrete input: the unopenable fixture
process is recorded at threshold 0 with resident size 0 and its snapshot
name. -/
theorem c9_failure_policy_witness :
    (⟨7, "svc.exe", false, true, 0⟩ : WinProcInfo).canOpen = false ∧
    winProcRecord 0 ⟨7, "svc.exe", false, true, 0⟩ = some (7, "svc.exe", 0) :=
  ⟨rfl,
   (c9_failure_policy ⟨7, "svc.exe", false, true, 0⟩ 4096 1 0 0 ⟨"x", none, none⟩).1 rfl⟩

/-- C10 counterexample: the claim that an unopenable Windows process is
omitted for every threshold T >= 1 fails at T = 2^44: the 64-bit
threshold product wraps to 0 there, so the process (with resident size 0)
is included again. -/
theorem c10_counterexample :
    1 ≤ (17592186044416 : Nat) ∧
    (7, "svc.exe", 0) ∈ listHighMemoryProcessesWin os9 17592186044416 := by
  refine ⟨by decide, by decide⟩

/-- C10 amended: on the Windows path a process that cannot be opened for
memory querying is treated as resident size 0 — included at threshold 0
with its snapshot-reported name, omitted at every threshold T >= 1 whose
byte product does not wrap 64 bits — while on the Linux path a process
whose `statm` cannot be opened is omitted at every threshold,
including 0. -/
theorem c10_unreadable_process_policy (os : WinOS) (p : WinProcInfo)
    (w : PosixWorld) (e : LinuxProcEntry) (T : Nat) :
    (p.canOpen = false → p ∈ os.procs → os.snapshotOk = true →
       (p.pid, p.snapName, 0) ∈ listHighMemoryProcessesWin os 0) ∧
    (p.canOpen = false → 1 ≤ T → T * 1024 * 1024 < 2 ^ 64 →
       winProcRecord T p = none) ∧
    (e.statm = none → linuxEntryRecord w.pageSize T e = none) := by
  refine ⟨fun h hp hsnap => ?_,
    fun h h1 h2 => winProcRecord_cannotOpen_pos p T h h1 h2,
    linuxEntryRecord_noStatm w.pageSize T e⟩
  unfold listHighMemoryProcessesWin
  rw [hsnap]
  simp only [if_true]
  exact List.mem_filterMap.mpr ⟨p, hp, winProcRecord_cannotOpen_zero p h⟩

/-- C10 amended, witnessed at a concrete input: the unopenable fixture
process appears in the threshold-0 listing and yields no record at
threshold 1. -/
theorem c10_unreadable_process_policy_witness :
    (7, "svc.exe", 0) ∈ listHighMemoryProcessesWin os9 0 ∧
    winProcRecord 1 ⟨7, "svc.exe", false, true, 0⟩ = none :=
  ⟨(c10_unreadable_process_policy os9 ⟨7, "svc.exe", false, true, 0⟩ fixtureW
      ⟨"x", none, none⟩ 1).1 rfl (by decide) rfl,
   (c10_unreadable_process_policy os9 ⟨7, "svc.exe", false, true, 0⟩ fixtureW
      ⟨"x", none, none⟩ 1).2.1 rfl (by decide) (by decide)⟩

/-- Any record listed by the POSIX enumeration meets the wrapped
threshold comparison the code performs. -/
theorem listPosix_mem_bound {w : PosixWorld} {T : Nat} {r : Int × String × Nat}
    (h : r ∈ listHighMemoryProcessesPosix w T) :
    usize (T * 1024 * 1024) ≤ r.2.2 := by
  unfold listHighMemoryProcessesPosix at h
  split at h
  · split at h
    · obtain ⟨e, _, hrec⟩ := List.mem_filterMap.mp h
      exact (linuxEntryRecord_some hrec).2.1
    · exact absurd h (by simp)
  · exact absurd h (by simp)

/-- The kill attempts of the one-shot record loop are exactly the listed
records' pids when `--kill` was given, and none otherwise. -/
theorem termCalls_oneShotProcLoop (w : PosixWorld) (dk : Bool)
    (l : List (Int × String × Nat)) :
    termCalls (oneShotProcLoop w dk l) = if dk then l.map (fun r => r.1) else [] := by
  induction l with
  | nil => cases dk <;> simp [oneShotProcLoop, termCalls]
  | cons r rs ih =>
    cases dk <;>
      simp_all [oneShotProcLoop, termCalls, oneShotKillEvents, List.filterMap_append]

/-- The kill attempts of the whole one-shot list body are exactly the
listed pids when `--kill` was given, and none otherwise. -/
theorem termCalls_oneShotListBody (w : PosixWorld) (T : Nat) (dk : Bool) :
    termCalls (oneShotListBody w T dk) =
      if dk then (listHighMemoryProcessesPosix w T).map (fun r => r.1) else [] := by
  unfold oneShotListBody
  rw [← termCalls_oneShotProcLoop w dk (listHighMemoryProcessesPosix w T)]
  cases hE : (listHighMemoryProcessesPosix w T).isEmpty <;>
    simp [termCalls, List.filterMap_append]

/-- C7 counterexample: `list 17592186044416 --kill` invokes terminate on
pid 5, whose record's resident size 4096 does not meet the threshold
(the 64-bit threshold product wraps to 0), refuting "never on any
non-qualifying pid". -/
theorem c7_counterexample :
    listHighMemoryProcessesPosix w7overflow 17592186044416 = [(5, "x", 4096)] ∧
    termCalls (oneShotListBody w7overflow 17592186044416 true) = [5] ∧
    ¬ (17592186044416 * 1024 * 1024 ≤ 4096) := by
  refine ⟨by decide, by decide, by decide⟩

/-- C7 amended: for thresholds whose byte product does not wrap 64 bits,
`list <T> --kill` invokes `tryTerminateProcess` exactly once per listed
record, in order; every terminated pid belongs to a record whose resident
size meets the threshold; and without `--kill` no terminate call is
made. -/
theorem c7_kill_exactly_listed (w : PosixWorld) (T : Nat)
    (hT : T * 1024 * 1024 < 2 ^ 64) :
    termCalls (oneShotListBody w T true) =
      (listHighMemoryProcessesPosix w T).map (fun r => r.1) ∧
    (∀ p : Int, p ∈ termCalls (oneShotListBody w T true) →
       ∃ name rss, (p, name, rss) ∈ listHighMemoryProcessesPosix w T ∧
         T * 1024 * 1024 ≤ rss) ∧
    termCalls (oneShotListBody w T false) = [] := by
  have h1 := termCalls_oneShotListBody w T true
  have h0 := termCalls_oneShotListBody w T false
  simp only [if_true, if_false] at h1 h0
  refine ⟨h1, fun p hp => ?_, h0⟩
  rw [h1] at hp
  obtain ⟨r, hr, hpid⟩ := List.mem_map.mp hp
  obtain ⟨pid, name, rss⟩ := r
  have hb := listPosix_mem_bound hr
  refine ⟨name, rss, by rwa [← hpid], ?_⟩
  unfold usize at hb
  rwa [Nat.mod_eq_of_lt hT] at hb

/-- C7 amended, witnessed at the spec's own scenario: against the
three-process fixture (60 MB, 10 MB, 50 MB), `list 50 --kill` invokes
terminate exactly twice, on pids 101 and 303. -/
theorem c7_kill_exactly_listed_witness :
    50 * 1024 * 1024 < 2 ^ 64 ∧
    termCalls (oneShotListBody fixtureW 50 true) =
      (listHighMemoryProcessesPosix fixtureW 50).map (fun r => r.1) ∧
    (listHighMemoryProcessesPosix fixtureW 50).map (fun r => r.1) = [101, 303] :=
  ⟨by decide, (c7_kill_exactly_listed fixtureW 50 (by decide)).1, by decide⟩

/-- C8: in the interactive menu, choosing the list option and then
entering the non-numeric threshold "abc" prints only the prompt and an
error message — no component is invoked, in particular not the
enumeration — and the session continues exactly as a fresh menu iteration
on the remaining input, so the failed attempt leaves no trace in the
state. -/
theorem c8_invalid_threshold_returns_to_menu (w : PosixWorld) (rest : List String) :
    runMenu w ("2" :: "abc" :: rest) =
      (menuDisplayEvents ++
       [Event.out ("Umbral en MB para listar procesos: "),
        Event.out ("Umbral inválido. Volviendo al menú.\n")]) ++ runMenu w rest ∧
    (menuDisplayEvents ++
     [Event.out ("Umbral en MB para listar procesos: "),
      Event.out ("Umbral inválido. Volviendo al menú.\n")]).all
        (fun e => ! isComponentCall e) = true := by
  constructor
  · have h2 : parseIntToken ("2") = some 2 := rfl
    have habc : parseSizeTToken ("abc") = none := rfl
    have hd : (digitsVal ['2'] 0).1 = 2 := rfl
    simp only [runMenu, h2, habc, hd]
    norm_num
  · decide

/-- The component calls of the one-shot record loop: one terminate call
per record when `--kill` was given, none otherwise. -/
theorem filter_calls_oneShotProcLoop (w : PosixWorld) (dk : Bool)
    (l : List (Int × String × Nat)) :
    (oneShotProcLoop w dk l).filter isComponentCall =
      if dk then l.map (fun r => Event.termCall r.1) else [] := by
  induction l with
  | nil => cases dk <;> simp [oneShotProcLoop]
  | cons r rs ih =>
    cases dk <;>
      simp_all [oneShotProcLoop, oneShotKillEvents, List.filter_append, isComponentCall]

/-- The component calls of the interactive record loop: one terminate
call per record when kill was confirmed, none otherwise. -/
theorem filter_calls_interactiveProcLoop (w : PosixWorld) (dk : Bool)
    (l : List (Int × String × Nat)) :
    (interactiveProcLoop w dk l).filter isComponentCall =
      if dk then l.map (fun r => Event.termCall r.1) else [] := by
  induction l with
  | nil => cases dk <;> simp [interactiveProcLoop]
  | cons r rs ih =>
    cases dk <;>
      simp_all [interactiveProcLoop, interactiveKillEvents, List.filter_append, isComponentCall]

/-- The component calls of the one-shot list body: one enumeration, then
the per-record terminate calls. -/
theorem filter_calls_oneShotListBody (w : PosixWorld) (T : Nat) (dk : Bool) :
    (oneShotListBody w T dk).filter isComponentCall =
      Event.enumCall T ::
        (if dk then (listHighMemoryProcessesPosix w T).map (fun r => Event.termCall r.1)
         else []) := by
  unfold oneShotListBody
  cases hE : (listHighMemoryProcessesPosix w T).isEmpty <;>
    simp [hE, List.filter_append, isComponentCall, filter_calls_oneShotProcLoop]

/-- The component calls of the interactive list body: one enumeration,
then the per-record terminate calls. -/
theorem filter_calls_interactiveListBody (w : PosixWorld) (T : Nat) (dk : Bool) :
    (interactiveListBody w T dk).filter isComponentCall =
      Event.enumCall T ::
        (if dk then (listHighMemoryProcessesPosix w T).map (fun r => Event.termCall r.1)
         else []) := by
  unfold interactiveListBody
  simp [isComponentCall, filter_calls_interactiveProcLoop]

/-- A one-shot `list` invocation whose threshold argument parses runs
exactly the one-shot list body. -/
theorem mainEvents_list_cmd (w : PosixWorld) (prog a : String) (T : Nat) (dk : Bool)
    (ha : stoul a = Except.ok T) :
    mainEvents (cppMain w prog (["list", a] ++ (if dk then [("--kill" : String)] else [])) []) =
      oneShotListBody w T dk := by
  cases dk <;> simp [cppMain, ha, mainEvents]

/-- An interactive session choosing option 2, a parsable threshold, a
kill answer and then exit performs exactly the component calls of the
interactive list body: the menu, the prompts and the exit round add
none. -/
theorem callsOf_runMenu_script (w : PosixWorld) (t k : String) (T : Nat)
    (ht : parseSizeTToken t = some T) :
    callsOf (runMenu w ["2", t, k, "4"]) =
      callsOf (interactiveListBody w T (isAffirmativeChar (headChar k))) := by
  have h2 : parseIntToken ("2") = some 2 := rfl
  have hd : (digitsVal ['2'] 0).1 = 2 := rfl
  have h4 : parseIntToken ("4") = some 4 := rfl
  have hd4 : (digitsVal ['4'] 0).1 = 4 := rfl
  simp only [runMenu, h2, hd, ht, h4, hd4]
  norm_num [callsOf, List.filter_append, isComponentCall, menuDisplayEvents]

/-- A one-shot `trim` invocation runs exactly the trim body. -/
theorem mainEvents_trim_cmd (w : PosixWorld) (prog : String) :
    mainEvents (cppMain w prog ["trim"] []) =
      trimCurrentProcessWorkingSetPosix w := by
  simp [cppMain, mainEvents]

/-- An interactive session choosing option 1 (trim) and then exit
performs exactly the component calls of the trim body: the menu and the
exit round add none. -/
theorem callsOf_runMenu_trim_script (w : PosixWorld) :
    callsOf (runMenu w ["1", "4"]) =
      callsOf (trimCurrentProcessWorkingSetPosix w) := by
  have h1 : parseIntToken ("1") = some 1 := rfl
  have hd1 : (digitsVal ['1'] 0).1 = 1 := rfl
  have h4 : parseIntToken ("4") = some 4 := rfl
  have hd4 : (digitsVal ['4'] 0).1 = 4 := rfl
  simp only [runMenu, h1, hd1, h4, hd4]
  norm_num [callsOf, List.filter_append, isComponentCall, menuDisplayEvents]

/-- C4 counterexample: the two entry paths do not produce equivalent
output. With no matching process, the one-shot `list 100` prints the
distinct empty-result message, but the interactive path for the same
threshold never prints it (it prints only its header), so the claimed
output equivalence "including the distinct empty-result message" fails. -/
theorem c4_counterexample :
    Event.out ("No processes found using >= 100 MB\n") ∈
      mainEvents (cppMain emptyW ("p") ["list", "100"] []) ∧
    Event.out ("No processes found using >= 100 MB\n") ∉
      runMenu emptyW ["2", "100", "n", "4"] := by
  refine ⟨by decide, by decide⟩

/-- C4 amended: for every trim / list / list-with-kill request the two
entry paths do invoke the components identically — a one-shot `trim`
performs exactly the same component calls as the interactive option-1
session, and a one-shot `list` run performs exactly the same enumeration
and per-record terminate calls, in the same order, as the interactive
session with the same threshold and kill choice — but the printed text
differs (only the one-shot path has the empty-result message, and the
record/kill lines differ in wording), so only the component behaviour,
not the output, is equivalent. -/
theorem c4_paths_same_component_calls (w : PosixWorld) (prog t a k : String)
    (T : Nat) (doKill : Bool)
    (ht : parseSizeTToken t = some T) (ha : stoul a = Except.ok T)
    (hk : isAffirmativeChar (headChar k) = doKill) :
    callsOf (mainEvents (cppMain w prog ["trim"] [])) =
      callsOf (runMenu w ["1", "4"]) ∧
    callsOf (mainEvents
      (cppMain w prog (["list", a] ++ (if doKill then [("--kill" : String)] else [])) [])) =
    callsOf (runMenu w ["2", t, k, "4"]) := by
  constructor
  · rw [mainEvents_trim_cmd w prog, callsOf_runMenu_trim_script w]
  · rw [mainEvents_list_cmd w prog a T doKill ha, callsOf_runMenu_script w t k T ht, hk]
    simp only [callsOf, filter_calls_oneShotListBody, filter_calls_interactiveListBody]

/-- C4 amended, witnessed at a concrete input: against the fixture, the
one-shot `trim` performs exactly the component calls of the interactive
session `1, 4`, and `list 50 --kill` performs exactly the component
calls of the interactive session `2, 50, s, 4`. -/
theorem c4_paths_same_component_calls_witness :
    parseSizeTToken ("50") = some 50 ∧ stoul ("50") = Except.ok 50 ∧
    isAffirmativeChar (headChar ("s")) = true ∧
    callsOf (mainEvents (cppMain fixtureW ("ex1") ["trim"] [])) =
      callsOf (runMenu fixtureW ["1", "4"]) ∧
    callsOf (mainEvents (cppMain fixtureW ("ex1")
        (["list", "50"] ++ (if true then [("--kill" : String)] else [])) [])) =
      callsOf (runMenu fixtureW ["2", "50", "s", "4"]) :=
  ⟨rfl, rfl, rfl,
   (c4_paths_same_component_calls fixtureW ("ex1") ("50") ("50") ("s") 50 true
      rfl rfl rfl).1,
   (c4_paths_same_component_calls fixtureW ("ex1") ("50") ("50") ("s") 50 true
      rfl rfl rfl).2⟩
